import Mathlib

/-
A shallow embedding of the Bynar disk-manager request-processing engine
(src/disk-manager/src/main.rs, src/disk-manager/src/backend/gluster.rs),
with theorems about its listener loop, operation dispatch, token
validation, device discovery and partition extraction.

External collaborators (the hashicorp vault client, the block_utils crate
and the gpt crate) are modelled as an abstract environment `Env` of
effect-free functions returning `Except`, mirroring the Rust `Result`
values the source observes.  The message processing of `listen` is
modelled as a total function from the list of decoded inbound messages to
a `Trace` recording the responses sent, each `load_backend` invocation
(with its `BackendType` argument) and each backend method invocation
(with its `simulate` argument).
-/

/-- protobuf `ResultType` from api::service (OK | ERR). -/
inductive ResultType
  | OK
  | ERR
deriving DecidableEq, Repr

/-- protobuf `Op` from api::service: the request kinds of the wire protocol. -/
inductive Op
  | Add
  | AddPartition
  | List
  | Remove
  | SafeToRemove
deriving DecidableEq, Repr

/-- protobuf `Operation` envelope: `get_Op_type`, `get_token`, optional
`disk`, `osd_id`, `osd_journal`, `osd_journal_partition` (the `has_x` /
`get_x` protobuf pairs are modelled as `Option`). -/
structure Operation where
  op_type : Op
  token : String
  disk : Option String
  osd_id : Option Nat
  osd_journal : Option String
  osd_journal_partition : Option Nat
deriving DecidableEq, Repr

/-- A 128-bit GUID value, as held by the gpt crate partition entry. -/
structure Uuid where
  val : Nat
deriving DecidableEq, Repr

/-- Lowercase hex digit for a value below 16. -/
def hexChar (n : Nat) : Char :=
  if n < 10 then Char.ofNat (48 + n) else Char.ofNat (87 + n)

/-- Fixed-width lowercase hex rendering of `n` (width is the second argument). -/
def toHex : Nat → Nat → String
  | _, 0 => ""
  | n, Nat.succ w => toHex (n / 16) w ++ String.singleton (hexChar (n % 16))

/-- The standard hyphenated 8-4-4-4-12 string rendering of a UUID, as
produced by `part_guid.hyphenated().to_string()` in the source. -/
def Uuid.hyphenated (u : Uuid) : String :=
  toHex ((u.val >>> 96) % (2 ^ 32)) 8 ++ "-" ++
  toHex ((u.val >>> 80) % (2 ^ 16)) 4 ++ "-" ++
  toHex ((u.val >>> 64) % (2 ^ 16)) 4 ++ "-" ++
  toHex ((u.val >>> 48) % (2 ^ 16)) 4 ++ "-" ++
  toHex (u.val % (2 ^ 48)) 12

/-- Opaque partition-table header, as returned by the gpt crate
`read_header`; the source only passes it on to `read_partitions`. -/
structure GptHeader where
  raw : List Nat
deriving DecidableEq, Repr

/-- A raw partition entry as parsed by the gpt crate `read_partitions`:
fields `part_guid`, `first_LBA`, `last_LBA`, `flags`, `name`. -/
structure GptPartition where
  part_guid : Uuid
  first_LBA : Nat
  last_LBA : Nat
  flags : Nat
  name : String
deriving DecidableEq, Repr

/-- protobuf `Partition` from api::service, filled by `get_partition_info`. -/
structure Partition where
  uuid : String
  first_lba : Nat
  last_lba : Nat
  flags : Nat
  name : String
deriving DecidableEq, Repr

/-- block_utils `MediaType` classification of a block device. -/
inductive MediaType
  | Loopback
  | LVM
  | MdRaid
  | NVME
  | Ram
  | Rotational
  | SolidState
  | Unknown
  | Virtual
deriving DecidableEq, Repr

/-- protobuf `DiskType` from api::service. -/
inductive DiskType
  | LOOPBACK
  | LVM
  | MDRAID
  | NVME
  | RAM
  | ROTATIONAL
  | SOLID_STATE
  | UNKNOWN
  | VIRTUAL
deriving DecidableEq, Repr

/-- Function `convert_media_to_disk_type` from main.rs: translate a block_utils
`MediaType` into the protobuf `DiskType`. -/
def convert_media_to_disk_type : MediaType → DiskType
  | MediaType.Loopback => DiskType.LOOPBACK
  | MediaType.LVM => DiskType.LVM
  | MediaType.MdRaid => DiskType.MDRAID
  | MediaType.NVME => DiskType.NVME
  | MediaType.Ram => DiskType.RAM
  | MediaType.Rotational => DiskType.ROTATIONAL
  | MediaType.SolidState => DiskType.SOLID_STATE
  | MediaType.Unknown => DiskType.UNKNOWN
  | MediaType.Virtual => DiskType.VIRTUAL

/-- block_utils `Device` record: the fields of it the source reads
(`name`, `media_type`, `serial_number`). -/
structure Device where
  name : String
  media_type : MediaType
  serial_number : Option String
deriving DecidableEq, Repr

/-- protobuf `Disk` from api::service, filled by `get_disks`. -/
structure Disk where
  field_type : DiskType
  dev_path : String
  partitions : List Partition
  serial_number : Option String
deriving DecidableEq, Repr

/-- protobuf `OpResult`: `result` plus `error_msg` (set only on ERR). -/
structure OpResult where
  result : ResultType
  error_msg : Option String
deriving DecidableEq, Repr

/-- protobuf `OpBoolResult`: `result`, `value` (set only on OK) and
`error_msg` (set only on ERR). -/
structure OpBoolResult where
  result : ResultType
  value : Option Bool
  error_msg : Option String
deriving DecidableEq, Repr

/-- A response message sent back on the REP socket: one of the three
reply shapes of the wire protocol. -/
inductive Response
  | opResult : OpResult → Response
  | opBoolResult : OpBoolResult → Response
  | disks : List Disk → Response
deriving DecidableEq, Repr

/-- Modelled from the spec: the `BackendType` enumerated selector defined
in the backend module (src/disk-manager/src/backend/mod.rs, not under
src/), chosen once at process start; spec section 3 lists gluster as the
current kind and main.rs offers a ceph value on the command line. -/
inductive BackendType
  | gluster
  | ceph
deriving DecidableEq, Repr

/-- The `Backend` trait of the backend module: the three-method contract,
with the signatures visible in the `impl Backend for GlusterBackend`
block of src/disk-manager/src/backend/gluster.rs.  Errors carry their
human-readable message (`e.to_string()` in the source). -/
structure Backend where
  add_disk : String → Option Nat → Option String → Option Nat → Bool → Except String Unit
  remove_disk : String → Bool → Except String Unit
  safe_to_remove : String → Bool → Except String Bool

/-- Definition `GlusterBackend` from src/disk-manager/src/backend/gluster.rs: every
method body is a bare `Ok` value. -/
def GlusterBackend : Backend where
  add_disk := fun _ _ _ _ _ => Except.ok ()
  remove_disk := fun _ _ => Except.ok ()
  safe_to_remove := fun _ _ => Except.ok true

/-- Which backend method an invocation went to. -/
inductive BackendMethod
  | addDisk
  | removeDisk
  | safeToRemove
deriving DecidableEq, Repr

/-- One backend method invocation: method, device argument, and the
`simulate` argument it was given. -/
structure BackendCall where
  method : BackendMethod
  device : String
  simulate : Bool
deriving DecidableEq, Repr

/-- Observable trace of processing: responses sent on the socket,
`load_backend` invocations (the `BackendType` argument of each) and
backend method invocations. -/
structure Trace where
  responses : List Response
  loads : List BackendType
  calls : List BackendCall
deriving DecidableEq, Repr

/-- The empty trace: nothing sent, nothing invoked. -/
def Trace.empty : Trace :=
  { responses := [], loads := [], calls := [] }

/-- Concatenation of traces of consecutive processing steps. -/
def Trace.append (t1 t2 : Trace) : Trace :=
  { responses := t1.responses ++ t2.responses
    loads := t1.loads ++ t2.loads
    calls := t1.calls ++ t2.calls }

/-- The external world as the source observes it: the vault client
constructor and secret fetch, `load_backend` (whose body lives in the
backend module not under src/; spec section 4.2 says construction may
fail with a configuration error), and the block_utils and gpt crate
calls.  Each field returns the `Except` outcome the corresponding Rust
`Result` has in the scenario being modelled. -/
structure Env where
  vault_new_client : String → String → Except String Unit
  vault_get_secret : String → Except String String
  load_backend : BackendType → Option String → Except String Backend
  get_block_devices : Except String (List String)
  get_all_device_info : List String → Except String (List Device)
  read_header : String → Except String GptHeader
  read_partitions : String → GptHeader → Except String (List GptPartition)

/-- Function `validate_vault_token` from main.rs: build a vault client for
`host`/`connect_token`, fetch the secret under `key`, then succeed
exactly when the fetched secret is NOT equal to the client token
(`match res != client_token { true => Ok(()), false => Err(..) }`). -/
def validate_vault_token (env : Env) (host : String) (connect_token : String)
    (client_token : String) (key : String) : Except String Unit :=
  match env.vault_new_client host connect_token with
  | Except.error e => Except.error e
  | Except.ok _ =>
    match env.vault_get_secret key with
    | Except.error e => Except.error e
    | Except.ok res =>
      if res ≠ client_token then Except.ok ()
      else Except.error "client token is invalid"

/-- Function `get_partition_info` from main.rs: read the header, read the
partition entries it describes, and map each raw entry into a protobuf
`Partition` (uuid as the hyphenated GUID string, first and last LBA,
flags, name). -/
def get_partition_info (env : Env) (dev_path : String) : Except String (List Partition) :=
  match env.read_header dev_path with
  | Except.error e => Except.error e
  | Except.ok h =>
    match env.read_partitions dev_path h with
    | Except.error e => Except.error e
    | Except.ok partitions =>
      Except.ok (partitions.map fun part =>
        { uuid := part.part_guid.hyphenated
          first_lba := part.first_LBA
          last_lba := part.last_LBA
          flags := part.flags
          name := part.name })

/-- Function `get_disks` from main.rs: enumerate block devices, gather device
info, and build one `Disk` per device, substituting an empty partition
list when `get_partition_info` fails for that device (`unwrap_or`). -/
def get_disks (env : Env) : Except String (List Disk) :=
  match env.get_block_devices with
  | Except.error e => Except.error e
  | Except.ok devices =>
    match env.get_all_device_info devices with
    | Except.error e => Except.error e
    | Except.ok device_info =>
      Except.ok (device_info.map fun device =>
        let dev_path := "/dev/" ++ device.name
        let p := match get_partition_info env dev_path with
          | Except.ok parts => parts
          | Except.error _ => []
        { field_type := convert_media_to_disk_type device.media_type
          dev_path := dev_path
          partitions := p
          serial_number := device.serial_number })

/-- Handler `add_disk` from main.rs: load the backend (recorded in
`loads`; on failure the `?` returns early and nothing is sent), invoke
`backend.add_disk(.., false)` (recorded in `calls`), and send an
`OpResult` that is OK on success and ERR with the error message on
failure. -/
def add_disk (env : Env) (d : String) (backend : BackendType) (id : Option Nat)
    (journal : Option String) (journal_partition : Option Nat)
    (config_dir : String) : Trace :=
  match env.load_backend backend (some config_dir) with
  | Except.error _ => { responses := [], loads := [backend], calls := [] }
  | Except.ok b =>
    let result : OpResult :=
      match b.add_disk d id journal journal_partition false with
      | Except.ok _ => { result := ResultType.OK, error_msg := none }
      | Except.error e => { result := ResultType.ERR, error_msg := some e }
    { responses := [Response.opResult result]
      loads := [backend]
      calls := [{ method := BackendMethod.addDisk, device := d, simulate := false }] }

/-- Handler `list_disks` from main.rs: encode and send the disk list; if
`get_disks` fails the `?` returns early and nothing is sent. -/
def list_disks (env : Env) : Trace :=
  match get_disks env with
  | Except.error _ => Trace.empty
  | Except.ok disk_list =>
    { responses := [Response.disks disk_list], loads := [], calls := [] }

/-- Handler `remove_disk` from main.rs: load the backend, invoke
`backend.remove_disk(.., false)`, send OK or ERR with the message. -/
def remove_disk (env : Env) (d : String) (backend : BackendType)
    (config_dir : String) : Trace :=
  match env.load_backend backend (some config_dir) with
  | Except.error _ => { responses := [], loads := [backend], calls := [] }
  | Except.ok b =>
    let result : OpResult :=
      match b.remove_disk d false with
      | Except.ok _ => { result := ResultType.OK, error_msg := none }
      | Except.error e => { result := ResultType.ERR, error_msg := some e }
    { responses := [Response.opResult result]
      loads := [backend]
      calls := [{ method := BackendMethod.removeDisk, device := d, simulate := false }] }

/-- Handler `safe_to_remove_disk` from main.rs: load the backend, invoke
`backend.safe_to_remove(.., false)`, send an `OpBoolResult` carrying the
boolean on OK or the message on ERR. -/
def safe_to_remove_disk (env : Env) (d : String) (backend : BackendType)
    (config_dir : String) : Trace :=
  match env.load_backend backend (some config_dir) with
  | Except.error _ => { responses := [], loads := [backend], calls := [] }
  | Except.ok b =>
    let result : OpBoolResult :=
      match b.safe_to_remove d false with
      | Except.ok val => { result := ResultType.OK, value := some val, error_msg := none }
      | Except.error e => { result := ResultType.ERR, value := none, error_msg := some e }
    { responses := [Response.opBoolResult result]
      loads := [backend]
      calls := [{ method := BackendMethod.safeToRemove, device := d, simulate := false }] }

/-- The request kinds whose match arm in `listen` checks `has_disk` and
drops the request when it is absent: Add, Remove and SafeToRemove. -/
def requires_disk : Op → Bool
  | Op.Add => true
  | Op.Remove => true
  | Op.SafeToRemove => true
  | _ => false

/-- One iteration of the `listen` loop body from main.rs, on one received
message.  `none` stands for a message `parse_from_bytes` rejected
(`continue`, nothing sent).  A decoded operation is token-validated
(failure: `continue`), then dispatched on `get_Op_type()`; Add, Remove
and SafeToRemove first check `has_disk` and `continue` without it;
AddPartition has an empty arm. -/
def listen_step (env : Env) (backend_type : BackendType) (config_dir : String)
    (vault_endpoint : String) (vault_token : String) (vault_key : String)
    (msg : Option Operation) : Trace :=
  match msg with
  | none => Trace.empty
  | some operation =>
    match validate_vault_token env vault_endpoint vault_token operation.token vault_key with
    | Except.error _ => Trace.empty
    | Except.ok _ =>
      match operation.op_type with
      | Op.Add =>
        match operation.disk with
        | none => Trace.empty
        | some d =>
          add_disk env d backend_type operation.osd_id operation.osd_journal
            operation.osd_journal_partition config_dir
      | Op.AddPartition => Trace.empty
      | Op.List => list_disks env
      | Op.Remove =>
        match operation.disk with
        | none => Trace.empty
        | some d => remove_disk env d backend_type config_dir
      | Op.SafeToRemove =>
        match operation.disk with
        | none => Trace.empty
        | some d => safe_to_remove_disk env d backend_type config_dir

/-- The `listen` loop of main.rs over a finite list of received
messages: each message is processed by `listen_step` and the loop
continues with the rest; no processing outcome breaks the loop. -/
def listen (env : Env) (backend_type : BackendType) (config_dir : String)
    (vault_endpoint : String) (vault_token : String) (vault_key : String) :
    List (Option Operation) → Trace
  | [] => Trace.empty
  | m :: rest =>
    (listen_step env backend_type config_dir vault_endpoint vault_token vault_key m).append
      (listen env backend_type config_dir vault_endpoint vault_token vault_key rest)

/-- A concrete environment for witness scenarios: the vault accepts the
connection and stores the secret "secret" under every key, `load_backend`
yields the gluster backend, the host reports two block devices, and no
device has a readable partition table. -/
def env0 : Env where
  vault_new_client := fun _ _ => Except.ok ()
  vault_get_secret := fun _ => Except.ok "secret"
  load_backend := fun _ _ => Except.ok GlusterBackend
  get_block_devices := Except.ok ["sda", "sdb"]
  get_all_device_info := fun l =>
    Except.ok (l.map fun n => { name := n, media_type := MediaType.Rotational, serial_number := none })
  read_header := fun _ => Except.error "no gpt header"
  read_partitions := fun _ _ => Except.error "no partitions"

/-- A backend whose `remove_disk` fails with "device busy". -/
def busyBackend : Backend where
  add_disk := fun _ _ _ _ _ => Except.ok ()
  remove_disk := fun _ _ => Except.error "device busy"
  safe_to_remove := fun _ _ => Except.ok true

/-- Environment `env0` with a backend whose `remove_disk` fails. -/
def envBusy : Env :=
  { env0 with load_backend := fun _ _ => Except.ok busyBackend }

/-- A header value for the valid-table scenario. -/
def hdr0 : GptHeader :=
  { raw := [1] }

/-- Two raw partition entries of a valid table. -/
def entries0 : List GptPartition :=
  [{ part_guid := { val := 5 }, first_LBA := 34, last_LBA := 2047, flags := 0, name := "boot" },
   { part_guid := { val := 6 }, first_LBA := 2048, last_LBA := 4095, flags := 1, name := "data" }]

/-- Environment `env0` with a device carrying a valid two-entry partition table. -/
def envGpt : Env :=
  { env0 with
    read_header := fun _ => Except.ok hdr0
    read_partitions := fun _ _ => Except.ok entries0 }

/-- A Remove request carrying the valid token "tok" and a disk path. -/
def opRemove0 : Operation :=
  { op_type := Op.Remove, token := "tok", disk := some "/dev/sda",
    osd_id := none, osd_journal := none, osd_journal_partition := none }

/-- A List request carrying the valid token "tok". -/
def opList0 : Operation :=
  { op_type := Op.List, token := "tok", disk := none,
    osd_id := none, osd_journal := none, osd_journal_partition := none }

/-- An AddPartition request carrying the valid token "tok". -/
def opAddPartition0 : Operation :=
  { op_type := Op.AddPartition, token := "tok", disk := none,
    osd_id := none, osd_journal := none, osd_journal_partition := none }

theorem Trace.empty_append (t : Trace) : Trace.empty.append t = t := by
  cases t
  simp [Trace.empty, Trace.append]

theorem add_disk_loads (env : Env) (d : String) (bt : BackendType) (id : Option Nat)
    (j : Option String) (jp : Option Nat) (cd : String) :
    (add_disk env d bt id j jp cd).loads = [bt] := by
  unfold add_disk
  cases env.load_backend bt (some cd) <;> rfl

theorem remove_disk_loads (env : Env) (d : String) (bt : BackendType) (cd : String) :
    (remove_disk env d bt cd).loads = [bt] := by
  unfold remove_disk
  cases env.load_backend bt (some cd) <;> rfl

theorem safe_to_remove_disk_loads (env : Env) (d : String) (bt : BackendType) (cd : String) :
    (safe_to_remove_disk env d bt cd).loads = [bt] := by
  unfold safe_to_remove_disk
  cases env.load_backend bt (some cd) <;> rfl

theorem add_disk_calls (env : Env) (d : String) (bt : BackendType) (id : Option Nat)
    (j : Option String) (jp : Option Nat) (cd : String) :
    ∀ c ∈ (add_disk env d bt id j jp cd).calls, c.simulate = false := by
  unfold add_disk
  cases env.load_backend bt (some cd) <;> simp

theorem remove_disk_calls (env : Env) (d : String) (bt : BackendType) (cd : String) :
    ∀ c ∈ (remove_disk env d bt cd).calls, c.simulate = false := by
  unfold remove_disk
  cases env.load_backend bt (some cd) <;> simp

theorem safe_to_remove_disk_calls (env : Env) (d : String) (bt : BackendType) (cd : String) :
    ∀ c ∈ (safe_to_remove_disk env d bt cd).calls, c.simulate = false := by
  unfold safe_to_remove_disk
  cases env.load_backend bt (some cd) <;> simp

theorem list_disks_loads (env : Env) : (list_disks env).loads = [] := by
  unfold list_disks
  cases get_disks env <;> rfl

theorem list_disks_calls (env : Env) : (list_disks env).calls = [] := by
  unfold list_disks
  cases get_disks env <;> rfl

theorem listen_step_calls_simulate (env : Env) (bt : BackendType) (cd ve vt vk : String)
    (msg : Option Operation) :
    ∀ c ∈ (listen_step env bt cd ve vt vk msg).calls, c.simulate = false := by
  unfold listen_step
  cases msg with
  | none => simp [Trace.empty]
  | some operation =>
    cases hv : validate_vault_token env ve vt operation.token vk with
    | error e => simp [hv, Trace.empty]
    | ok u =>
      cases hop : operation.op_type with
      | Add =>
        cases hd : operation.disk with
        | none => simp [hv, hop, hd, Trace.empty]
        | some d =>
          simpa [hv, hop, hd] using
            add_disk_calls env d bt operation.osd_id operation.osd_journal
              operation.osd_journal_partition cd
      | AddPartition => simp [hv, hop, Trace.empty]
      | List => simp [hv, hop, list_disks_calls]
      | Remove =>
        cases hd : operation.disk with
        | none => simp [hv, hop, hd, Trace.empty]
        | some d => simpa [hv, hop, hd] using remove_disk_calls env d bt cd
      | SafeToRemove =>
        cases hd : operation.disk with
        | none => simp [hv, hop, hd, Trace.empty]
        | some d => simpa [hv, hop, hd] using safe_to_remove_disk_calls env d bt cd

theorem listen_step_loads_fixed (env : Env) (bt : BackendType) (cd ve vt vk : String)
    (msg : Option Operation) :
    ∀ b ∈ (listen_step env bt cd ve vt vk msg).loads, b = bt := by
  unfold listen_step
  cases msg with
  | none => simp [Trace.empty]
  | some operation =>
    cases hv : validate_vault_token env ve vt operation.token vk with
    | error e => simp [hv, Trace.empty]
    | ok u =>
      cases hop : operation.op_type with
      | Add =>
        cases hd : operation.disk with
        | none => simp [hv, hop, hd, Trace.empty]
        | some d => simp [hv, hop, hd, add_disk_loads]
      | AddPartition => simp [hv, hop, Trace.empty]
      | List => simp [hv, hop, list_disks_loads]
      | Remove =>
        cases hd : operation.disk with
        | none => simp [hv, hop, hd, Trace.empty]
        | some d => simp [hv, hop, hd, remove_disk_loads]
      | SafeToRemove =>
        cases hd : operation.disk with
        | none => simp [hv, hop, hd, Trace.empty]
        | some d => simp [hv, hop, hd, safe_to_remove_disk_loads]

theorem listen_nil (env : Env) (bt : BackendType) (cd ve vt vk : String) :
    listen env bt cd ve vt vk [] = Trace.empty :=
  rfl

theorem listen_cons (env : Env) (bt : BackendType) (cd ve vt vk : String)
    (m : Option Operation) (rest : List (Option Operation)) :
    listen env bt cd ve vt vk (m :: rest) =
      (listen_step env bt cd ve vt vk m).append (listen env bt cd ve vt vk rest) :=
  rfl

/-- Claim C1: `validate_vault_token` succeeds if and only if the vault
connection succeeds, the secret fetch succeeds and the fetched secret is
NOT equal to the caller-supplied token; every connection or fetch failure
is a validation failure, never a success. -/
theorem validate_vault_token_ok_iff (env : Env) (host connect_token client_token key : String) :
    validate_vault_token env host connect_token client_token key = Except.ok () ↔
      (env.vault_new_client host connect_token = Except.ok () ∧
        ∃ s, env.vault_get_secret key = Except.ok s ∧ s ≠ client_token) := by
  unfold validate_vault_token
  cases hc : env.vault_new_client host connect_token with
  | error e => simp [hc]
  | ok u =>
    cases u
    cases hs : env.vault_get_secret key with
    | error e => simp [hs]
    | ok res =>
      by_cases hne : res = client_token
      · simp [hne]
      · simp [hne]

/-- Claim C7: for every device path, the gluster backend
`safe_to_remove` with `simulate = true` returns `Ok(true)`. -/
theorem gluster_safe_to_remove_simulate (device : String) :
    GlusterBackend.safe_to_remove device true = Except.ok true :=
  rfl

/-- Claim C10: for every input, the gluster backend `add_disk` and
`remove_disk` return `Ok(())` and `safe_to_remove` returns `Ok(true)`;
no operation of this implementation ever returns an error. -/
theorem gluster_backend_always_ok (device : String) (id : Option Nat)
    (journal : Option String) (journal_partition : Option Nat) (simulate : Bool) :
    GlusterBackend.add_disk device id journal journal_partition simulate = Except.ok () ∧
    GlusterBackend.remove_disk device simulate = Except.ok () ∧
    GlusterBackend.safe_to_remove device simulate = Except.ok true :=
  ⟨rfl, rfl, rfl⟩

/-- Claim C2: an incoming message that fails to decode, or decodes but
fails token validation, or decodes to a kind requiring `disk_path` while
omitting it, produces no response (and no backend activity), and the
listener loop continues with the remaining messages; the missing-disk
drop holds for every kind for which `requires_disk` is true. -/
theorem listen_drops_invalid_requests (env : Env) (bt : BackendType) (cd ve vt vk : String)
    (msg : Option Operation) (rest : List (Option Operation))
    (h : msg = none ∨ ∃ op, msg = some op ∧
      ((∃ e, validate_vault_token env ve vt op.token vk = Except.error e) ∨
        (requires_disk op.op_type = true ∧ op.disk = none))) :
    listen_step env bt cd ve vt vk msg = Trace.empty ∧
    listen env bt cd ve vt vk (msg :: rest) = listen env bt cd ve vt vk rest := by
  have hstep : listen_step env bt cd ve vt vk msg = Trace.empty := by
    rcases h with h | ⟨op, hmsg, hcase⟩
    · subst h
      rfl
    · subst hmsg
      rcases hcase with ⟨e, hv⟩ | ⟨hreq, hd⟩
      · simp [listen_step, hv]
      · cases hv : validate_vault_token env ve vt op.token vk with
        | error e => simp [listen_step, hv]
        | ok u =>
          cases hop : op.op_type with
          | Add => simp [listen_step, hv, hop, hd]
          | AddPartition => simp [requires_disk, hop] at hreq
          | List => simp [requires_disk, hop] at hreq
          | Remove => simp [listen_step, hv, hop, hd]
          | SafeToRemove => simp [listen_step, hv, hop, hd]
  refine ⟨hstep, ?_⟩
  have hcons : listen env bt cd ve vt vk (msg :: rest) =
      (listen_step env bt cd ve vt vk msg).append (listen env bt cd ve vt vk rest) := rfl
  rw [hcons, hstep, Trace.empty_append]

theorem listen_drops_invalid_requests_witness :
    listen_step env0 BackendType.gluster "/etc" "vep" "vtok" "key" none = Trace.empty ∧
    listen env0 BackendType.gluster "/etc" "vep" "vtok" "key" [none] =
      listen env0 BackendType.gluster "/etc" "vep" "vtok" "key" [] :=
  listen_drops_invalid_requests env0 BackendType.gluster "/etc" "vep" "vtok" "key"
    none [] (Or.inl rfl)

/-- Claim C8: an AddPartition request with a valid token is accepted
without error: no backend action, no response, and the loop continues
with the remaining messages. -/
theorem add_partition_accepted_noop (env : Env) (bt : BackendType) (cd ve vt vk : String)
    (op : Operation) (rest : List (Option Operation))
    (htok : validate_vault_token env ve vt op.token vk = Except.ok ())
    (hop : op.op_type = Op.AddPartition) :
    listen_step env bt cd ve vt vk (some op) = Trace.empty ∧
    listen env bt cd ve vt vk (some op :: rest) = listen env bt cd ve vt vk rest := by
  have hstep : listen_step env bt cd ve vt vk (some op) = Trace.empty := by
    simp [listen_step, htok, hop]
  refine ⟨hstep, ?_⟩
  have hcons : listen env bt cd ve vt vk (some op :: rest) =
      (listen_step env bt cd ve vt vk (some op)).append (listen env bt cd ve vt vk rest) := rfl
  rw [hcons, hstep, Trace.empty_append]

theorem add_partition_accepted_noop_witness :
    listen_step env0 BackendType.gluster "/etc" "vep" "vtok" "key" (some opAddPartition0) =
      Trace.empty ∧
    listen env0 BackendType.gluster "/etc" "vep" "vtok" "key" [some opAddPartition0] =
      listen env0 BackendType.gluster "/etc" "vep" "vtok" "key" [] :=
  add_partition_accepted_noop env0 BackendType.gluster "/etc" "vep" "vtok" "key"
    opAddPartition0 [] rfl rfl

/-- Claim C9: every backend method invocation made while processing any
list of messages carries `simulate = false`; no `Operation` field reaches
the `simulate` argument, so simulate mode is unreachable through the
wire protocol. -/
theorem dispatcher_always_simulate_false (env : Env) (bt : BackendType) (cd ve vt vk : String)
    (msgs : List (Option Operation)) (c : BackendCall)
    (hc : c ∈ (listen env bt cd ve vt vk msgs).calls) :
    c.simulate = false := by
  induction msgs with
  | nil =>
    rw [listen_nil] at hc
    simp [Trace.empty] at hc
  | cons m rest ih =>
    rw [listen_cons] at hc
    simp only [Trace.append, List.mem_append] at hc
    rcases hc with h | h
    · exact listen_step_calls_simulate env bt cd ve vt vk m c h
    · exact ih h

theorem dispatcher_always_simulate_false_witness :
    ({ method := BackendMethod.removeDisk, device := "/dev/sda", simulate := false } :
      BackendCall).simulate = false :=
  dispatcher_always_simulate_false env0 BackendType.gluster "/etc" "vep" "vtok" "key"
    [some opRemove0] _ (by decide)

/-- Claim C3 counterexample: processing two Remove requests invokes
`load_backend` twice (once inside each request handler), so the backend
instance is NOT constructed exactly once before request processing
begins and reused: it is re-constructed per request. -/
theorem backend_constructed_per_request_counterexample :
    (listen env0 BackendType.gluster "/etc" "vep" "vtok" "key"
        [some opRemove0, some opRemove0]).loads =
      [BackendType.gluster, BackendType.gluster] ∧
    ¬ (listen env0 BackendType.gluster "/etc" "vep" "vtok" "key"
        [some opRemove0, some opRemove0]).loads.length ≤ 1 := by
  constructor
  · decide
  · decide

/-- Claim C3 (amended): the backend KIND is selected once at startup and
is immutable — every `load_backend` invocation during processing uses
that same startup `BackendType` — but the backend instance is
constructed anew on each Add, Remove or SafeToRemove request that passes
token validation and carries a disk path: each such request contributes
exactly one `load_backend` invocation. -/
theorem backend_selection_fixed_loaded_per_request (env : Env) (bt : BackendType)
    (cd ve vt vk : String) (msgs : List (Option Operation)) :
    (∀ b ∈ (listen env bt cd ve vt vk msgs).loads, b = bt) ∧
    (∀ op d rest, validate_vault_token env ve vt op.token vk = Except.ok () →
      op.disk = some d → requires_disk op.op_type = true →
      (listen env bt cd ve vt vk (some op :: rest)).loads =
        bt :: (listen env bt cd ve vt vk rest).loads) := by
  constructor
  · induction msgs with
    | nil =>
      rw [listen_nil]
      simp [Trace.empty]
    | cons m rest ih =>
      intro b hb
      rw [listen_cons] at hb
      simp only [Trace.append, List.mem_append] at hb
      rcases hb with h | h
      · exact listen_step_loads_fixed env bt cd ve vt vk m b h
      · exact ih b h
  · intro op d rest htok hdisk hreq
    have hstep : (listen_step env bt cd ve vt vk (some op)).loads = [bt] := by
      cases hop : op.op_type with
      | Add => simp [listen_step, htok, hop, hdisk, add_disk_loads]
      | AddPartition => simp [requires_disk, hop] at hreq
      | List => simp [requires_disk, hop] at hreq
      | Remove => simp [listen_step, htok, hop, hdisk, remove_disk_loads]
      | SafeToRemove => simp [listen_step, htok, hop, hdisk, safe_to_remove_disk_loads]
    have hcons : listen env bt cd ve vt vk (some op :: rest) =
        (listen_step env bt cd ve vt vk (some op)).append
          (listen env bt cd ve vt vk rest) := rfl
    rw [hcons]
    simp only [Trace.append]
    rw [hstep]
    rfl

theorem backend_selection_fixed_loaded_per_request_witness :
    (listen env0 BackendType.gluster "/etc" "vep" "vtok" "key" [some opRemove0]).loads =
      BackendType.gluster ::
        (listen env0 BackendType.gluster "/etc" "vep" "vtok" "key" []).loads :=
  (backend_selection_fixed_loaded_per_request env0 BackendType.gluster
    "/etc" "vep" "vtok" "key" []).2 opRemove0 "/dev/sda" [] rfl rfl rfl

/-- Claim C4: on a device whose partition table reads successfully with
entries whose block ranges are well-formed, `get_partition_info` returns
exactly one `Partition` per raw entry, in on-disk entry order, carrying
the hyphenated GUID string, first and last LBA, flags and name of its
entry unchanged, and every returned record satisfies
`first_lba ≤ last_lba`. -/
theorem get_partition_info_exact (env : Env) (dev : String) (h : GptHeader)
    (entries : List GptPartition)
    (hh : env.read_header dev = Except.ok h)
    (hp : env.read_partitions dev h = Except.ok entries)
    (hv : ∀ e ∈ entries, e.first_LBA ≤ e.last_LBA) :
    ∃ parts, get_partition_info env dev = Except.ok parts ∧
      parts.length = entries.length ∧
      List.Forall₂ (fun p e => p.uuid = Uuid.hyphenated e.part_guid ∧
        p.first_lba = e.first_LBA ∧ p.last_lba = e.last_LBA ∧
        p.flags = e.flags ∧ p.name = e.name) parts entries ∧
      ∀ p ∈ parts, p.first_lba ≤ p.last_lba := by
  refine ⟨entries.map (fun part =>
    { uuid := part.part_guid.hyphenated
      first_lba := part.first_LBA
      last_lba := part.last_LBA
      flags := part.flags
      name := part.name }), ?_, ?_, ?_, ?_⟩
  · simp [get_partition_info, hh, hp]
  · simp
  · rw [List.forall₂_map_left_iff, List.forall₂_same]
    intro e he
    exact ⟨rfl, rfl, rfl, rfl, rfl⟩
  · intro p hmem
    simp only [List.mem_map] at hmem
    obtain ⟨e, he, rfl⟩ := hmem
    exact hv e he

theorem get_partition_info_exact_witness :
    ∃ parts, get_partition_info envGpt "/dev/sda" = Except.ok parts ∧
      parts.length = entries0.length ∧
      List.Forall₂ (fun p e => p.uuid = Uuid.hyphenated e.part_guid ∧
        p.first_lba = e.first_LBA ∧ p.last_lba = e.last_LBA ∧
        p.flags = e.flags ∧ p.name = e.name) parts entries0 ∧
      ∀ p ∈ parts, p.first_lba ≤ p.last_lba :=
  get_partition_info_exact envGpt "/dev/sda" hdr0 entries0 rfl rfl (by decide)

/-- Claim C5: for an Add, Remove or SafeToRemove request with a valid
token and a disk path, once the backend loads, a failing backend call
with message m yields exactly one response with status ERR and
error_msg m, and a succeeding call yields exactly one response with
status OK (for SafeToRemove carrying the returned boolean). -/
theorem backend_outcome_reported (env : Env) (bt : BackendType) (cd ve vt vk : String)
    (op : Operation) (d : String) (b : Backend)
    (htok : validate_vault_token env ve vt op.token vk = Except.ok ())
    (hdisk : op.disk = some d)
    (hload : env.load_backend bt (some cd) = Except.ok b) :
    (op.op_type = Op.Add →
      (∀ m, b.add_disk d op.osd_id op.osd_journal op.osd_journal_partition false =
          Except.error m →
        (listen_step env bt cd ve vt vk (some op)).responses =
          [Response.opResult { result := ResultType.ERR, error_msg := some m }]) ∧
      (b.add_disk d op.osd_id op.osd_journal op.osd_journal_partition false =
          Except.ok () →
        (listen_step env bt cd ve vt vk (some op)).responses =
          [Response.opResult { result := ResultType.OK, error_msg := none }])) ∧
    (op.op_type = Op.Remove →
      (∀ m, b.remove_disk d false = Except.error m →
        (listen_step env bt cd ve vt vk (some op)).responses =
          [Response.opResult { result := ResultType.ERR, error_msg := some m }]) ∧
      (b.remove_disk d false = Except.ok () →
        (listen_step env bt cd ve vt vk (some op)).responses =
          [Response.opResult { result := ResultType.OK, error_msg := none }])) ∧
    (op.op_type = Op.SafeToRemove →
      (∀ m, b.safe_to_remove d false = Except.error m →
        (listen_step env bt cd ve vt vk (some op)).responses =
          [Response.opBoolResult
            { result := ResultType.ERR, value := none, error_msg := some m }]) ∧
      (∀ v, b.safe_to_remove d false = Except.ok v →
        (listen_step env bt cd ve vt vk (some op)).responses =
          [Response.opBoolResult
            { result := ResultType.OK, value := some v, error_msg := none }])) := by
  refine ⟨fun hop => ⟨fun m hcall => ?_, fun hcall => ?_⟩,
    fun hop => ⟨fun m hcall => ?_, fun hcall => ?_⟩,
    fun hop => ⟨fun m hcall => ?_, fun v hcall => ?_⟩⟩
  · simp [listen_step, htok, hop, hdisk, add_disk, hload, hcall]
  · simp [listen_step, htok, hop, hdisk, add_disk, hload, hcall]
  · simp [listen_step, htok, hop, hdisk, remove_disk, hload, hcall]
  · simp [listen_step, htok, hop, hdisk, remove_disk, hload, hcall]
  · simp [listen_step, htok, hop, hdisk, safe_to_remove_disk, hload, hcall]
  · simp [listen_step, htok, hop, hdisk, safe_to_remove_disk, hload, hcall]

theorem backend_outcome_reported_witness :
    (listen_step envBusy BackendType.gluster "/etc" "vep" "vtok" "key"
        (some opRemove0)).responses =
      [Response.opResult { result := ResultType.ERR, error_msg := some "device busy" }] :=
  ((backend_outcome_reported envBusy BackendType.gluster "/etc" "vep" "vtok" "key"
    opRemove0 "/dev/sda" busyBackend rfl rfl rfl).2.1 rfl).1 "device busy" rfl

/-- Claim C6: for a List request with a valid token, when device
enumeration succeeds and the host reports info for each block device,
`get_disks` returns one `Disk` per block device (same length as the
device list), the listener sends exactly that disk list, and for any
device whose partition extraction fails the returned `Disk` has an empty
partition list — the failure does not fail the List operation. -/
theorem list_disks_one_per_device (env : Env) (bt : BackendType) (cd ve vt vk : String)
    (op : Operation) (devs : List String) (infos : List Device)
    (htok : validate_vault_token env ve vt op.token vk = Except.ok ())
    (hop : op.op_type = Op.List)
    (h1 : env.get_block_devices = Except.ok devs)
    (h2 : env.get_all_device_info devs = Except.ok infos)
    (hlen : infos.length = devs.length) :
    ∃ disks, get_disks env = Except.ok disks ∧
      disks.length = devs.length ∧
      (listen_step env bt cd ve vt vk (some op)).responses = [Response.disks disks] ∧
      List.Forall₂ (fun dsk device =>
        dsk.dev_path = "/dev/" ++ device.name ∧
        (∀ e, get_partition_info env ("/dev/" ++ device.name) = Except.error e →
          dsk.partitions = [])) disks infos := by
  refine ⟨infos.map (fun device =>
    let dev_path := "/dev/" ++ device.name
    let p := match get_partition_info env dev_path with
      | Except.ok parts => parts
      | Except.error _ => []
    { field_type := convert_media_to_disk_type device.media_type
      dev_path := dev_path
      partitions := p
      serial_number := device.serial_number }), ?_, ?_, ?_, ?_⟩
  · simp [get_disks, h1, h2]
  · simp [hlen]
  · have hgd : get_disks env = Except.ok (infos.map (fun device =>
      let dev_path := "/dev/" ++ device.name
      let p := match get_partition_info env dev_path with
        | Except.ok parts => parts
        | Except.error _ => []
      { field_type := convert_media_to_disk_type device.media_type
        dev_path := dev_path
        partitions := p
        serial_number := device.serial_number })) := by
      simp [get_disks, h1, h2]
    simp [listen_step, htok, hop, list_disks, hgd]
  · rw [List.forall₂_map_left_iff, List.forall₂_same]
    intro device hdev
    refine ⟨rfl, ?_⟩
    intro e he
    simp [he]

theorem list_disks_one_per_device_witness :
    ∃ disks : List Disk, get_disks env0 = Except.ok disks ∧
      disks.length = (["sda", "sdb"] : List String).length ∧
      (listen_step env0 BackendType.gluster "/etc" "vep" "vtok" "key"
        (some opList0)).responses = [Response.disks disks] ∧
      List.Forall₂ (fun (dsk : Disk) (device : Device) =>
        dsk.dev_path = "/dev/" ++ device.name ∧
        (∀ e, get_partition_info env0 ("/dev/" ++ device.name) = Except.error e →
          dsk.partitions = []))
        disks
        [{ name := "sda", media_type := MediaType.Rotational, serial_number := none },
         { name := "sdb", media_type := MediaType.Rotational, serial_number := none }] :=
  list_disks_one_per_device env0 BackendType.gluster "/etc" "vep" "vtok" "key" opList0
    ["sda", "sdb"]
    [{ name := "sda", media_type := MediaType.Rotational, serial_number := none },
     { name := "sdb", media_type := MediaType.Rotational, serial_number := none }]
    rfl rfl rfl rfl rfl
